import Mathlib

/-!
# Packet connection adaptor (`common/net/packetaddr/connection_adaptor.go`)

A shallow embedding of the adaptor that exposes a transport link as an
addressed datagram socket, and the properties of its `ReadFrom`, `WriteTo`,
`Close` and of the two constructors.

Go values are modelled as follows.
* a byte slice is a `List Byte`; a `buf.Buffer` is the list of the bytes it
  holds; a `buf.MultiBuffer` is the list of its buffers;
* a Go `error` is an `Option Error`, `none` being `nil`;
* the receiver `c *packetConnectionAdaptor` is passed in and returned;
* the slice argument of `ReadFrom` aliases the caller's array, so the model
  returns the array as the call leaves it;
* the link is a collaborator: its behaviour is a parameter (`Link`), its
  state is threaded through the adaptor.
-/

namespace packetaddr

/-! ## Data model -/

abbrev Byte := Nat

/-- Contents of one `buf.Buffer`. -/
abbrev Buffer := List Byte

/-- A `buf.MultiBuffer`: a sequence of buffers. -/
abbrev MultiBuffer := List Buffer

/-- A Go `error` value that is not nil. -/
structure Error where
  msg : String
  deriving DecidableEq, Repr

def errNotPacketConn : Error := Error.mk "not a packet connection"

def errUnsupported : Error := Error.mk "unsupported action"

/-- The `net.AddressFamily` of an address. -/
inductive AddressFamily where
  | IPv4
  | IPv6
  | Domain
  deriving DecidableEq, Repr

def AddressFamily.IsDomain : AddressFamily → Bool
  | AddressFamily.Domain => true
  | _ => false

/-- A `net.Address`: an IPv4 host, an IPv6 host or a domain name. -/
inductive Address where
  | ipv4Address (a b c d : Byte)
  | ipv6Address (ip : List Byte)
  | domainAddress (name : String)
  deriving DecidableEq, Repr

def Address.Family : Address → AddressFamily
  | Address.ipv4Address _ _ _ _ => AddressFamily.IPv4
  | Address.ipv6Address _ => AddressFamily.IPv6
  | Address.domainAddress _ => AddressFamily.Domain

/-- The method `Address.Domain()`; it panics (`none`) on an IP address. -/
def Address.Domain : Address → Option String
  | Address.domainAddress name => some name
  | _ => none

def DomainAddress (name : String) : Address := Address.domainAddress name

inductive Network where
  | Unknown
  | TCP
  | UDP
  | UNIX
  deriving DecidableEq, Repr

/-- A `net.Destination`. -/
structure Destination where
  Address : Address
  Port : Nat
  Network : Network
  deriving DecidableEq, Repr

/-- A `gonet.Addr` as the adaptor uses it: a host and a port. -/
structure Addr where
  host : Address
  port : Nat
  deriving DecidableEq, Repr

/-! ## Collaborators -/

/-- The functions of package `buf` and of the address codec that the adaptor
calls. They live in other files of the repository; the adaptor is embedded
over any implementation of them. -/
structure Externals where
  /-- The constant `seqPacketMagicAddress`. -/
  seqPacketMagicAddress : String
  /-- The codec function `AttachAddressToPacket(data, address)`. -/
  AttachAddressToPacket : List Byte → Addr → List Byte
  /-- The codec function `ExtractAddressFromPacket(data)`; `none` is a nil address. -/
  ExtractAddressFromPacket : List Byte → List Byte × Option Addr
  /-- The buffer that `buf.New()` returns. -/
  New : Buffer
  /-- The method `MultiBuffer.IsEmpty()`. -/
  IsEmpty : MultiBuffer → Bool
  /-- The function `buf.SplitFirstBytes(mb, p)`: the multibuffer left, the array behind `p`
  after the copy, and the number of bytes copied. -/
  SplitFirstBytes : MultiBuffer → List Byte → MultiBuffer × List Byte × Nat
  /-- The function `buf.ReleaseMulti(mb)`. -/
  ReleaseMulti : MultiBuffer → MultiBuffer

/-- Behaviour of a `transport.Link` whose state is a value of `σ`. -/
structure Link (σ : Type) where
  /-- The call `link.Reader.ReadMultiBuffer()`. -/
  ReadMultiBuffer : σ → σ × MultiBuffer × Option Error
  /-- The call `link.Writer.WriteMultiBuffer(mb)`. -/
  WriteMultiBuffer : σ → MultiBuffer → σ × Option Error
  /-- The call `common.Interrupt(link)`. -/
  Interrupt : σ → σ × Option Error

/-- One invocation of the link. -/
inductive LinkCall where
  | ReadMultiBuffer
  | WriteMultiBuffer (mb : MultiBuffer)
  | Interrupt
  deriving DecidableEq, Repr

/-- The same link, recording every invocation made on it. -/
def Link.traced {σ : Type} (L : Link σ) : Link (σ × List LinkCall) where
  ReadMultiBuffer s :=
    let r := L.ReadMultiBuffer s.1
    ((r.1, s.2 ++ [LinkCall.ReadMultiBuffer]), r.2.1, r.2.2)
  WriteMultiBuffer s mb :=
    let r := L.WriteMultiBuffer s.1 mb
    ((r.1, s.2 ++ [LinkCall.WriteMultiBuffer mb]), r.2)
  Interrupt s :=
    let r := L.Interrupt s.1
    ((r.1, s.2 ++ [LinkCall.Interrupt]), r.2)

/-- Behaviour of a `routing.Dispatcher` whose state is a value of `δ`; `κ` is the context. -/
structure Dispatcher (δ κ σ : Type) where
  Dispatch : δ → κ → Destination → δ × σ × Option Error

/-- The same dispatcher, recording the arguments of every `Dispatch`. -/
def Dispatcher.traced {δ κ σ : Type} (D : Dispatcher δ κ σ) :
    Dispatcher (δ × List (κ × Destination)) κ σ where
  Dispatch s ctx dest :=
    let r := D.Dispatch s.1 ctx dest
    ((r.1, s.2 ++ [(ctx, dest)]), r.2.1, r.2.2)

/-! ## The adaptor -/

/-- The struct `packetConnectionAdaptor`; the mutex has no state of its own. -/
structure packetConnectionAdaptor (σ : Type) where
  readerBuffer : MultiBuffer
  link : σ

/-- Result of `ReadFrom`: the receiver, the caller's array, and `(n, addr, err)`. -/
structure ReadResult (σ : Type) where
  adaptor : packetConnectionAdaptor σ
  p : List Byte
  n : Nat
  addr : Option Addr
  err : Option Error

/-- Result of `WriteTo`: the receiver and `(n, err)`. -/
structure WriteResult (σ : Type) where
  adaptor : packetConnectionAdaptor σ
  n : Nat
  err : Option Error

/-- The function `ToPacketAddrConn(link, dest)`. The outer `Option` is `none` when
`dest.Address.Domain()` panics. -/
def ToPacketAddrConn {σ : Type} (E : Externals) (link : σ) (dest : Destination) :
    Option (Option (packetConnectionAdaptor σ) × Option Error) :=
  if !dest.Address.Family.IsDomain then
    some (none, some errNotPacketConn)
  else
    match dest.Address.Domain with
    | none => none
    | some d =>
      if d = E.seqPacketMagicAddress then
        some (some { readerBuffer := [], link := link }, none)
      else
        some (none, some errNotPacketConn)

/-- The function `CreatePacketAddrConn(ctx, dispatcher, isStream)`; the dispatcher's state
is returned along with the result pair. -/
def CreatePacketAddrConn {δ κ σ : Type} (E : Externals) (D : Dispatcher δ κ σ)
    (ctx : κ) (dispatcher : δ) (isStream : Bool) :
    δ × Option (packetConnectionAdaptor σ) × Option Error :=
  if isStream then
    (dispatcher, none, some errUnsupported)
  else
    let packetDest : Destination :=
      { Address := DomainAddress E.seqPacketMagicAddress, Port := 0, Network := Network.UDP }
    let r := D.Dispatch dispatcher ctx packetDest
    match r.2.2 with
    | some err => (r.1, none, some err)
    | none => (r.1, some { readerBuffer := [], link := r.2.1 }, none)

/-- The method `ReadFrom(p)`. -/
def ReadFrom {σ : Type} (E : Externals) (L : Link σ) (c : packetConnectionAdaptor σ)
    (p : List Byte) : ReadResult σ :=
  -- if c.readerBuffer.IsEmpty() { c.readerBuffer, err = c.link.Reader.ReadMultiBuffer() }
  let st : packetConnectionAdaptor σ × Option Error :=
    if E.IsEmpty c.readerBuffer then
      let r := L.ReadMultiBuffer c.link
      ({ readerBuffer := r.2.1, link := r.1 }, r.2.2)
    else
      (c, none)
  -- c.readerBuffer, n = buf.SplitFirstBytes(c.readerBuffer, p)
  let s := E.SplitFirstBytes st.1.readerBuffer p
  -- p, addr = ExtractAddressFromPacket(p)
  let x := E.ExtractAddressFromPacket s.2.1
  { adaptor := { readerBuffer := s.1, link := st.1.link },
    p := s.2.1, n := s.2.2, addr := x.2, err := st.2 }

/-- The method `WriteTo(p, addr)`. -/
def WriteTo {σ : Type} (E : Externals) (L : Link σ) (c : packetConnectionAdaptor σ)
    (p : List Byte) (addr : Addr) : WriteResult σ :=
  let payloadLen := p.length
  -- the framed packet is assigned to the local `p`, which is not read again
  let _p := E.AttachAddressToPacket p addr
  let buffer := E.New
  let mb : MultiBuffer := [buffer]
  let r := L.WriteMultiBuffer c.link mb
  let _released := E.ReleaseMulti mb
  match r.2 with
  | some err => { adaptor := { c with link := r.1 }, n := 0, err := some err }
  | none => { adaptor := { c with link := r.1 }, n := payloadLen, err := none }

/-- The method `Close()`. -/
def Close {σ : Type} (E : Externals) (L : Link σ) (c : packetConnectionAdaptor σ) :
    packetConnectionAdaptor σ × Option Error :=
  let rb := E.ReleaseMulti c.readerBuffer
  let r := L.Interrupt c.link
  ({ readerBuffer := rb, link := r.1 }, r.2)

/-- A call on the adaptor. -/
inductive Call where
  | ReadFrom (p : List Byte)
  | WriteTo (p : List Byte) (addr : Addr)
  | Close

/-- The adaptor after one call. -/
def Call.run {σ : Type} (E : Externals) (L : Link σ) (c : packetConnectionAdaptor σ) :
    Call → packetConnectionAdaptor σ
  | Call.ReadFrom p => (packetaddr.ReadFrom E L c p).adaptor
  | Call.WriteTo p addr => (packetaddr.WriteTo E L c p addr).adaptor
  | Call.Close => (packetaddr.Close E L c).1

/-- The adaptor after a sequence of calls. -/
def runCalls {σ : Type} (E : Externals) (L : Link σ) (c : packetConnectionAdaptor σ)
    (calls : List Call) : packetConnectionAdaptor σ :=
  calls.foldl (Call.run E L) c

/-! ## The collaborators -/

/-- Modelled from the spec: the constant `seqPacketMagicAddress` (declared in another file of
the package), the reserved marker destination, a sentinel domain name. -/
def seqPacketMagicAddress : String := "sp.packet-addr.v2fly.arpa"

/-- Modelled from the spec: the two port bytes of the address prefix ("a 2-byte port"),
most significant byte first. -/
def encodePort (port : Nat) : List Byte := [port / 256 % 256, port % 256]

/-- Modelled from the spec: the address prefix of the wire encoding, "type tag byte selecting
IPv4, IPv6 or domain-name, followed by the address's fixed- or length-prefixed bytes, followed
by a 2-byte port". The tags are 1, 2 and 3. -/
def encodeAddress (a : Addr) : List Byte :=
  match a.host with
  | Address.ipv4Address b0 b1 b2 b3 => [1, b0, b1, b2, b3] ++ encodePort a.port
  | Address.ipv6Address ip => 2 :: ip ++ encodePort a.port
  | Address.domainAddress name =>
    3 :: name.length % 256 :: name.toList.map Char.toNat ++ encodePort a.port

/-- Modelled from the spec: the codec function `AttachAddressToPacket` (in another file of
the package), "produces a new byte sequence = encode(address) ++ payload". -/
def AttachAddressToPacket (data : List Byte) (a : Addr) : List Byte :=
  encodeAddress a ++ data

/-- Modelled from the spec: the port read back from the two bytes at offset `i`. -/
def decodePort (data : List Byte) (i : Nat) : Nat :=
  data.getD i 0 * 256 + data.getD (i + 1) 0

/-- Modelled from the spec: the codec function `ExtractAddressFromPacket` (in another file of
the package), "parses the leading prefix, returns the address and the remaining bytes as
payload"; on a buffer shorter than the prefix or with an unrecognized type tag it returns the
buffer as it is and no address. -/
def ExtractAddressFromPacket (data : List Byte) : List Byte × Option Addr :=
  match data with
  | [] => (data, none)
  | tag :: rest =>
    if tag = 1 then
      if 6 ≤ rest.length then
        (rest.drop 6,
          some { host := Address.ipv4Address (rest.getD 0 0) (rest.getD 1 0) (rest.getD 2 0)
                   (rest.getD 3 0),
                 port := decodePort rest 4 })
      else (data, none)
    else if tag = 2 then
      if 18 ≤ rest.length then
        (rest.drop 18,
          some { host := Address.ipv6Address (rest.take 16), port := decodePort rest 16 })
      else (data, none)
    else if tag = 3 then
      match rest with
      | [] => (data, none)
      | len :: body =>
        if len + 2 ≤ body.length then
          (body.drop (len + 2),
            some { host := Address.domainAddress (String.mk ((body.take len).map Char.ofNat)),
                   port := decodePort body len })
        else (data, none)
    else (data, none)

/-- Modelled from the spec: the method `MultiBuffer.IsEmpty()` of package `buf`; the
pending-read buffer is empty when it holds no byte. -/
def IsEmpty (mb : MultiBuffer) : Bool := mb.all List.isEmpty

/-- The function `buf.SplitFirst(mb)` of package `buf` (file `common/buf/multi_buffer.go`):
it takes the first buffer off the multibuffer; `none` is the nil buffer of an empty
multibuffer. -/
def SplitFirst (mb : MultiBuffer) : MultiBuffer × Option Buffer :=
  match mb with
  | [] => (mb, none)
  | b :: rest => (rest, some b)

/-- The function `buf.SplitFirstBytes(mb, p)` of package `buf` (file
`common/buf/multi_buffer.go`): it splits the first buffer off the multibuffer, copies its
content into `p` as `copy(p, b.Bytes())` does, and releases that buffer; what of the buffer
does not fit `p` goes with it. The rest of `p` keeps what it held. -/
def SplitFirstBytes (mb : MultiBuffer) (p : List Byte) : MultiBuffer × List Byte × Nat :=
  let r := SplitFirst mb
  match r.2 with
  | none => (r.1, p, 0)
  | some b =>
    let n := min p.length b.length
    (r.1, b.take n ++ p.drop n, n)

/-- Modelled from the spec: the function `buf.ReleaseMulti(mb)` of package `buf`; it "releases
the pending-read buffer" and returns the multibuffer emptied. -/
def ReleaseMulti (_mb : MultiBuffer) : MultiBuffer := []

/-- Modelled from the spec: the function `buf.New()` of package `buf`; the transient buffer it
allocates holds no byte. -/
def New : Buffer := []

/-- The collaborators as modelled above. -/
def specExternals : Externals where
  seqPacketMagicAddress := seqPacketMagicAddress
  AttachAddressToPacket := AttachAddressToPacket
  ExtractAddressFromPacket := ExtractAddressFromPacket
  New := New
  IsEmpty := IsEmpty
  SplitFirstBytes := SplitFirstBytes
  ReleaseMulti := ReleaseMulti

/-- All the bytes of a multibuffer, in order. -/
def MultiBuffer.bytes (mb : MultiBuffer) : List Byte := mb.flatten

/-! ## Test links -/

/-- State of an in-memory pipe: the multibuffers written and not yet read, and whether the
pipe was interrupted. -/
structure PipeState where
  queue : List MultiBuffer
  interrupted : Bool
  deriving DecidableEq, Repr

def errClosedPipe : Error := Error.mk "io: read/write on closed pipe"

def errNoData : Error := Error.mk "pipe: no data"

/-- An in-memory pipe: the reader delivers exactly the multibuffers handed to the writer, in
order; a reader and a writer that were interrupted fail. A read that finds the pipe empty
would wait; it is reported as an error. `common.Interrupt` is handed the link itself, which
is neither its reader nor its writer: the call returns nil and leaves the pipe as it is. -/
def pipe : Link PipeState where
  ReadMultiBuffer s :=
    if s.interrupted then (s, [], some errClosedPipe)
    else
      match s.queue with
      | [] => (s, [], some errNoData)
      | mb :: q => ({ s with queue := q }, mb, none)
  WriteMultiBuffer s mb :=
    if s.interrupted then (s, some errClosedPipe)
    else ({ s with queue := s.queue ++ [mb] }, none)
  Interrupt s := (s, none)

/-- A link whose reader always has the multibuffer `mb` ready, whose writer accepts
everything, and on which an interrupt has no effect. -/
def steadyLink (mb : MultiBuffer) : Link Unit where
  ReadMultiBuffer _ := ((), mb, none)
  WriteMultiBuffer _ _ := ((), none)
  Interrupt _ := ((), none)

/-- A link whose reader returns the multibuffer `mb` together with the error `e`. -/
def failingLink (mb : MultiBuffer) (e : Error) : Link Unit where
  ReadMultiBuffer _ := ((), mb, some e)
  WriteMultiBuffer _ _ := ((), some e)
  Interrupt _ := ((), none)

/-- The end-to-end scenario: `WriteTo(payload, a)` on an adaptor whose link is an empty pipe,
then `ReadFrom(q)` on the peer adaptor at the other end of that pipe. -/
def writeThenRead (E : Externals) (payload : List Byte) (a : Addr) (q : List Byte) :
    WriteResult PipeState × ReadResult PipeState :=
  let w := WriteTo E pipe { readerBuffer := [], link := { queue := [], interrupted := false } }
    payload a
  (w, ReadFrom E pipe { readerBuffer := [], link := w.adaptor.link } q)

/-- The multibuffer a `ReadFrom` call serves from: the pending-read buffer, or what the
link's reader returns when the pending-read buffer is empty. -/
def available {σ : Type} (E : Externals) (L : Link σ) (c : packetConnectionAdaptor σ) :
    MultiBuffer :=
  if E.IsEmpty c.readerBuffer then (L.ReadMultiBuffer c.link).2.1 else c.readerBuffer

/-- A fresh adaptor bound to `link`, nothing pending. -/
def freshAdaptor {σ : Type} (link : σ) : packetConnectionAdaptor σ :=
  { readerBuffer := [], link := link }

/-- The address 10.0.0.1:9999 of the end-to-end scenario. -/
def addr10 : Addr := { host := Address.ipv4Address 10 0 0 1, port := 9999 }

/-- A payload of five bytes. -/
def payload5 : List Byte := [1, 2, 3, 4, 5]

/-- An open, empty pipe on which no call was made yet. -/
def emptyPipe : PipeState × List LinkCall := ({ queue := [], interrupted := false }, [])

/-- An adaptor with two chunks pending, of five and of two bytes. -/
def pendingTwoChunks : packetConnectionAdaptor Unit :=
  { readerBuffer := [[1, 2, 3, 4, 5], [6, 7]], link := () }

/-- The addresses the wire encoding represents: a port of 16 bits, an IPv6 host of 16 bytes,
a domain name whose length fits the length byte. -/
def Addr.Valid (a : Addr) : Prop :=
  a.port < 65536 ∧
    match a.host with
    | Address.ipv4Address _ _ _ _ => True
    | Address.ipv6Address ip => ip.length = 16
    | Address.domainAddress name => name.length < 256

/-- The adaptor a call of `Close` leaves. -/
def closed {σ : Type} (E : Externals) (L : Link σ) (c : packetConnectionAdaptor σ) :
    packetConnectionAdaptor σ :=
  (Close E L c).1

/-- A caller's array of twelve bytes that still holds the datagram of an earlier read, from
10.0.0.1:9999, behind three other bytes. -/
def staleBuffer : List Byte := [9, 9, 9, 0, 1, 39, 15, 1, 2, 3, 4, 5]

/-- A caller's array of twelve zero bytes. -/
def zeroBuffer : List Byte := List.replicate 12 0

/-- A link whose reader delivers one chunk of three bytes, the start of an IPv4 prefix. -/
def runtLink : Link Unit := steadyLink [[1, 10, 0]]

/-- The calls made after `Close` in the example: a read, a write, a second close. -/
def laterCalls : List Call :=
  [Call.ReadFrom [0, 0], Call.WriteTo payload5 addr10, Call.Close]

/-- An adaptor on an open pipe that holds one datagram. -/
def adaptorOnPipe : packetConnectionAdaptor PipeState :=
  { readerBuffer := [], link := { queue := [[[1, 2, 3]]], interrupted := false } }

/-! ## Properties -/

/-- The link sees exactly one call per `WriteTo`, a write of the buffer `buf.New()` gave. -/
theorem WriteTo_trace {σ : Type} (E : Externals) (L : Link σ)
    (c : packetConnectionAdaptor (σ × List LinkCall)) (p : List Byte) (a : Addr) :
    (WriteTo E L.traced c p a).adaptor.link.2
      = c.link.2 ++ [LinkCall.WriteMultiBuffer [E.New]] := by
  unfold WriteTo
  simp only [Link.traced]
  split <;> rfl

/-- The state in which `WriteTo` leaves the link is the one the writer returned. -/
theorem WriteTo_link {σ : Type} (E : Externals) (L : Link σ) (c : packetConnectionAdaptor σ)
    (p : List Byte) (a : Addr) :
    (WriteTo E L c p a).adaptor.link = (L.WriteMultiBuffer c.link [E.New]).1 := by
  unfold WriteTo
  simp only
  split <;> rfl

theorem WriteTo_readerBuffer {σ : Type} (E : Externals) (L : Link σ) (c : packetConnectionAdaptor σ)
    (p : List Byte) (a : Addr) :
    (WriteTo E L c p a).adaptor.readerBuffer = c.readerBuffer := by
  unfold WriteTo
  simp only
  split <;> rfl

theorem WriteTo_err {σ : Type} (E : Externals) (L : Link σ) (c : packetConnectionAdaptor σ)
    (p : List Byte) (a : Addr) :
    (WriteTo E L c p a).err = (L.WriteMultiBuffer c.link [E.New]).2 := by
  unfold WriteTo
  simp only
  split <;> simp_all

theorem WriteTo_n {σ : Type} (E : Externals) (L : Link σ) (c : packetConnectionAdaptor σ)
    (p : List Byte) (a : Addr) :
    (WriteTo E L c p a).n
      = if (L.WriteMultiBuffer c.link [E.New]).2 = none then p.length else 0 := by
  unfold WriteTo
  simp only
  split <;> simp_all

theorem ReadFrom_err {σ : Type} (E : Externals) (L : Link σ) (c : packetConnectionAdaptor σ)
    (p : List Byte) :
    (ReadFrom E L c p).err
      = if E.IsEmpty c.readerBuffer then (L.ReadMultiBuffer c.link).2.2 else none := by
  unfold ReadFrom
  by_cases h : E.IsEmpty c.readerBuffer = true <;> simp [h]

theorem ReadFrom_link {σ : Type} (E : Externals) (L : Link σ) (c : packetConnectionAdaptor σ)
    (p : List Byte) :
    (ReadFrom E L c p).adaptor.link
      = if E.IsEmpty c.readerBuffer then (L.ReadMultiBuffer c.link).1 else c.link := by
  unfold ReadFrom
  by_cases h : E.IsEmpty c.readerBuffer = true <;> simp [h]

/-- What `ReadFrom` leaves pending, what it leaves in the caller's array and the count it
returns are the three results of `buf.SplitFirstBytes` on the available multibuffer. -/
theorem ReadFrom_split {σ : Type} (E : Externals) (L : Link σ) (c : packetConnectionAdaptor σ)
    (p : List Byte) :
    ((ReadFrom E L c p).adaptor.readerBuffer, (ReadFrom E L c p).p, (ReadFrom E L c p).n)
      = E.SplitFirstBytes (available E L c) p := by
  unfold ReadFrom available
  by_cases h : E.IsEmpty c.readerBuffer = true <;> simp [h]

/-- The address `ReadFrom` returns is decoded from the caller's whole array. -/
theorem ReadFrom_addr {σ : Type} (E : Externals) (L : Link σ) (c : packetConnectionAdaptor σ)
    (p : List Byte) :
    (ReadFrom E L c p).addr = (E.ExtractAddressFromPacket (ReadFrom E L c p).p).2 := by
  unfold ReadFrom
  by_cases h : E.IsEmpty c.readerBuffer = true <;> simp [h]

theorem ReadFrom_trace {σ : Type} (E : Externals) (L : Link σ)
    (c : packetConnectionAdaptor (σ × List LinkCall)) (p : List Byte) :
    (ReadFrom E L.traced c p).adaptor.link.2
      = c.link.2 ++ (if E.IsEmpty c.readerBuffer then [LinkCall.ReadMultiBuffer] else []) := by
  rw [ReadFrom_link]
  by_cases h : E.IsEmpty c.readerBuffer = true <;> simp [h, Link.traced]

/-! ### Claims on `WriteTo` -/

/-- C1: `WriteTo(p, a)` is claimed to hand the writer one chunk holding
`AttachAddressToPacket(p, a)`. The code hands it the buffer of `buf.New()`, whatever `p` and
`a` are; with payload `1 2 3 4 5` and address 10.0.0.1:9999 the writer receives one chunk of
no bytes, while the framed packet has twelve. -/
theorem WriteTo_hands_over_fresh_buffer :
    (∀ (E : Externals) (p : List Byte) (a : Addr),
      (WriteTo E pipe.traced (freshAdaptor emptyPipe) p a).adaptor.link.2
        = [LinkCall.WriteMultiBuffer [E.New]]) ∧
    (WriteTo specExternals pipe.traced (freshAdaptor emptyPipe) payload5 addr10).adaptor.link.2
      = [LinkCall.WriteMultiBuffer [[]]] ∧
    specExternals.AttachAddressToPacket payload5 addr10
      = [1, 10, 0, 0, 1, 39, 15, 1, 2, 3, 4, 5] ∧
    (WriteTo specExternals pipe.traced (freshAdaptor emptyPipe) payload5 addr10).adaptor.link.2
      ≠ [LinkCall.WriteMultiBuffer [specExternals.AttachAddressToPacket payload5 addr10]] := by
  refine ⟨fun E p a => ?_, by decide, by decide, by decide⟩
  rw [WriteTo_trace]
  rfl

/-- C7: `WriteTo(p, a)` returns `(len(p), nil)` when the writer succeeds and `(0, e)` when
it fails with `e`, `len(p)` being the length of the payload as passed in; the link is called
exactly once, a `WriteMultiBuffer`, and is left in the state that call returned. -/
theorem WriteTo_result (σ : Type) (E : Externals) (L : Link σ)
    (c : packetConnectionAdaptor (σ × List LinkCall)) (p : List Byte) (a : Addr) :
    (WriteTo E L.traced c p a).err = (L.WriteMultiBuffer c.link.1 [E.New]).2 ∧
    (WriteTo E L.traced c p a).n
      = (match (L.WriteMultiBuffer c.link.1 [E.New]).2 with
         | none => p.length
         | some _ => 0) ∧
    (WriteTo E L.traced c p a).adaptor.link
      = ((L.WriteMultiBuffer c.link.1 [E.New]).1,
          c.link.2 ++ [LinkCall.WriteMultiBuffer [E.New]]) := by
  refine ⟨?_, ?_, ?_⟩
  · rw [WriteTo_err]; rfl
  · rw [WriteTo_n]
    have h : (L.traced.WriteMultiBuffer c.link [E.New]).2
        = (L.WriteMultiBuffer c.link.1 [E.New]).2 := rfl
    rw [h]
    cases (L.WriteMultiBuffer c.link.1 [E.New]).2 <;> simp
  · rw [WriteTo_link]; rfl

/-! ### Claims on `ReadFrom` -/

/-- C6: `ReadFrom` returns an error if and only if the pending-read buffer was empty at
entry and the link's `ReadMultiBuffer` returned an error, and then it returns that error;
whatever `ExtractAddressFromPacket` answers, the count and the bytes copied are those of
`buf.SplitFirstBytes`. -/
theorem ReadFrom_error_is_link_error (σ : Type) (E : Externals) (L : Link σ)
    (c : packetConnectionAdaptor σ) (p : List Byte) :
    ((ReadFrom E L c p).err ≠ none ↔
      (E.IsEmpty c.readerBuffer = true ∧ (L.ReadMultiBuffer c.link).2.2 ≠ none)) ∧
    (ReadFrom E L c p).err
      = (if E.IsEmpty c.readerBuffer then (L.ReadMultiBuffer c.link).2.2 else none) ∧
    ((ReadFrom E L c p).p, (ReadFrom E L c p).n)
      = (E.SplitFirstBytes (available E L c) p).2 := by
  refine ⟨?_, ReadFrom_err E L c p, ?_⟩
  · rw [ReadFrom_err]
    by_cases h : E.IsEmpty c.readerBuffer = true <;> simp [h]
  · rw [← ReadFrom_split]

/-- C9: in any state the adaptor reaches through `ReadFrom`, `WriteTo` and `Close` calls, a
`ReadFrom` call whose pending-read buffer is empty calls the link once, a `ReadMultiBuffer`;
one whose pending-read buffer is not empty makes no link call, leaves the link as it was and
is served by `buf.SplitFirstBytes` from the pending-read buffer. -/
theorem ReadFrom_reads_link_iff_empty (σ : Type) (E : Externals) (L : Link σ)
    (c0 : packetConnectionAdaptor (σ × List LinkCall)) (calls : List Call) (p : List Byte) :
    if E.IsEmpty (runCalls E L.traced c0 calls).readerBuffer then
      (ReadFrom E L.traced (runCalls E L.traced c0 calls) p).adaptor.link.2
        = (runCalls E L.traced c0 calls).link.2 ++ [LinkCall.ReadMultiBuffer]
    else
      (ReadFrom E L.traced (runCalls E L.traced c0 calls) p).adaptor.link
        = (runCalls E L.traced c0 calls).link ∧
      ((ReadFrom E L.traced (runCalls E L.traced c0 calls) p).adaptor.readerBuffer,
        (ReadFrom E L.traced (runCalls E L.traced c0 calls) p).p,
        (ReadFrom E L.traced (runCalls E L.traced c0 calls) p).n)
        = E.SplitFirstBytes (runCalls E L.traced c0 calls).readerBuffer p := by
  generalize runCalls E L.traced c0 calls = c
  by_cases h : E.IsEmpty c.readerBuffer = true
  · rw [if_pos h, ReadFrom_trace, if_pos h]
  · rw [if_neg h, ReadFrom_link, if_neg h, ReadFrom_split]
    simp [available, h]

/-! ### Claims on the constructors -/

/-- C3: `ToPacketAddrConn(link, dest)` returns an adaptor and a nil error if and only if the
family of `dest.Address` is domain-name and its domain is `seqPacketMagicAddress`; otherwise
it returns no adaptor and `errNotPacketConn`. The adaptor it returns is bound to `link` and
has nothing pending. On an address of one of the three families it never panics. -/
theorem ToPacketAddrConn_iff_magic (σ : Type) (E : Externals) (link : σ) (dest : Destination) :
    ToPacketAddrConn E link dest
      = some (if dest.Address.Family = AddressFamily.Domain ∧
                dest.Address.Domain = some E.seqPacketMagicAddress
              then (some { readerBuffer := [], link := link }, none)
              else (none, some errNotPacketConn)) := by
  unfold ToPacketAddrConn
  cases hA : dest.Address with
  | ipv4Address a b c d => simp [Address.Family, AddressFamily.IsDomain]
  | ipv6Address ip => simp [Address.Family, AddressFamily.IsDomain]
  | domainAddress name =>
    by_cases h : name = E.seqPacketMagicAddress <;>
      simp [Address.Family, AddressFamily.IsDomain, Address.Domain, h]

/-- C8: `CreatePacketAddrConn` with `isStream` true returns no adaptor and `errUnsupported`
and makes no `Dispatch` call; with `isStream` false it makes one `Dispatch` call, for the
destination (domain `seqPacketMagicAddress`, port 0, UDP), returns the dispatcher's error and
no adaptor when there is one, and otherwise an adaptor on the link returned, nothing
pending. -/
theorem CreatePacketAddrConn_dispatch (δ κ σ : Type) (E : Externals) (D : Dispatcher δ κ σ)
    (ctx : κ) (d : δ) (log : List (κ × Destination)) (isStream : Bool) :
    CreatePacketAddrConn E D.traced ctx (d, log) isStream
      = (if isStream then ((d, log), none, some errUnsupported)
         else
           (((D.Dispatch d ctx
                { Address := Address.domainAddress E.seqPacketMagicAddress,
                  Port := 0, Network := Network.UDP }).1,
              log ++ [(ctx, { Address := Address.domainAddress E.seqPacketMagicAddress,
                              Port := 0, Network := Network.UDP })]),
            match (D.Dispatch d ctx
                { Address := Address.domainAddress E.seqPacketMagicAddress,
                  Port := 0, Network := Network.UDP }).2.2 with
            | some err => (none, some err)
            | none =>
              (some { readerBuffer := [],
                      link := (D.Dispatch d ctx
                        { Address := Address.domainAddress E.seqPacketMagicAddress,
                          Port := 0, Network := Network.UDP }).2.1 }, none))) := by
  unfold CreatePacketAddrConn
  cases isStream with
  | true => simp
  | false =>
    simp only [Bool.false_eq_true, if_false, Dispatcher.traced, DomainAddress]
    split <;> simp_all

/-! ### The split of the pending-read buffer -/

theorem SplitFirstBytes_nil (p : List Byte) : SplitFirstBytes [] p = ([], p, 0) := rfl

theorem SplitFirstBytes_cons (b : Buffer) (mb : MultiBuffer) (p : List Byte) :
    SplitFirstBytes (b :: mb) p
      = (mb, b.take (min p.length b.length) ++ p.drop (min p.length b.length),
          min p.length b.length) := rfl

theorem ReadFrom_spec_split {σ : Type} (L : Link σ) (c : packetConnectionAdaptor σ)
    (p : List Byte) :
    (ReadFrom specExternals L c p).adaptor.readerBuffer
        = (SplitFirstBytes (available specExternals L c) p).1 ∧
      (ReadFrom specExternals L c p).p
        = (SplitFirstBytes (available specExternals L c) p).2.1 ∧
      (ReadFrom specExternals L c p).n
        = (SplitFirstBytes (available specExternals L c) p).2.2 := by
  have h := ReadFrom_split specExternals L c p
  have h1 := congrArg Prod.fst h
  have h2 := congrArg (fun x => x.2.1) h
  have h3 := congrArg (fun x => x.2.2) h
  exact ⟨h1, h2, h3⟩

/-- The array a copy of `b` into `p` leaves: its length, its front and its back. -/
theorem copy_shape (b p : List Byte) :
    (b.take (min p.length b.length) ++ p.drop (min p.length b.length)).length = p.length ∧
    (b.take (min p.length b.length) ++ p.drop (min p.length b.length)).take
        (min p.length b.length) = b.take p.length ∧
    (b.take (min p.length b.length) ++ p.drop (min p.length b.length)).drop
        (min p.length b.length) = p.drop (min p.length b.length) := by
  have hl : (b.take (min p.length b.length)).length = min p.length b.length := by
    rw [List.length_take]
    omega
  refine ⟨?_, ?_, ?_⟩
  · rw [List.length_append, hl, List.length_drop]
    omega
  · rw [List.take_left' hl]
    rcases Nat.le_total p.length b.length with h | h
    · rw [Nat.min_eq_left h]
    · rw [Nat.min_eq_right h, List.take_of_length_le h, List.take_of_length_le (Nat.le_refl _)]
  · rw [List.drop_left' hl]

/-- C5, as the code has it: a `ReadFrom` call serves one chunk, the first of the available
multibuffer (the pending-read buffer, or what the link's reader returned when the
pending-read buffer was empty). It copies `n = min(len(p), len(chunk))` bytes of that chunk
to the front of `p`, leaves the rest of `p` alone, and leaves pending the chunks that follow,
whole and in order: no byte is delivered twice. The bytes copied, then the bytes of the
chunk past `len(p)`, then the bytes left pending are the bytes that were available; the
chunk's bytes past `len(p)` are released with it, so a chunk no longer than `p` loses
nothing. With nothing available `n = 0` and `p` keeps what it held. The link is left as the
reader returned it, or as it was when the call was served from the pending-read buffer. -/
theorem ReadFrom_serves_first_chunk (σ : Type) (L : Link σ) (c : packetConnectionAdaptor σ)
    (p : List Byte) :
    (ReadFrom specExternals L c p).adaptor.link
        = (if IsEmpty c.readerBuffer then (L.ReadMultiBuffer c.link).1 else c.link) ∧
      (ReadFrom specExternals L c p).p.length = p.length ∧
      (ReadFrom specExternals L c p).p.drop (ReadFrom specExternals L c p).n
        = p.drop (ReadFrom specExternals L c p).n ∧
      (match available specExternals L c with
        | [] =>
          (ReadFrom specExternals L c p).n = 0 ∧
          (ReadFrom specExternals L c p).p = p ∧
          (ReadFrom specExternals L c p).adaptor.readerBuffer = []
        | b :: mb =>
          (ReadFrom specExternals L c p).n = min p.length b.length ∧
          (ReadFrom specExternals L c p).p.take (ReadFrom specExternals L c p).n
            = b.take p.length ∧
          (ReadFrom specExternals L c p).adaptor.readerBuffer = mb ∧
          (ReadFrom specExternals L c p).p.take (ReadFrom specExternals L c p).n
              ++ (b.drop p.length
                ++ (ReadFrom specExternals L c p).adaptor.readerBuffer.bytes)
            = MultiBuffer.bytes (b :: mb)) := by
  obtain ⟨h1, h2, h3⟩ := ReadFrom_spec_split L c p
  refine ⟨ReadFrom_link specExternals L c p, ?_⟩
  rw [h1, h2, h3]
  cases hav : available specExternals L c with
  | nil => simp [SplitFirstBytes_nil]
  | cons b mb =>
    obtain ⟨k1, k2, k3⟩ := copy_shape b p
    simp only [SplitFirstBytes_cons]
    refine ⟨k1, k3, trivial, k2, trivial, ?_⟩
    rw [k2, ← List.append_assoc, List.take_append_drop]
    simp [MultiBuffer.bytes]

/-- C5 as claimed fails: two bytes are asked of a pending buffer whose chunks are
`1 2 3 4 5` and `6 7`. The caller gets `1 2`, the bytes `3 4 5` are gone with their chunk,
`6 7` alone stays pending and is what the next call delivers; asked for seven bytes, the
call copies five, not the seven available. -/
theorem ReadFrom_drops_chunk_remainder :
    available specExternals (steadyLink []) pendingTwoChunks = [[1, 2, 3, 4, 5], [6, 7]] ∧
    (ReadFrom specExternals (steadyLink []) pendingTwoChunks [0, 0]).err = none ∧
    (ReadFrom specExternals (steadyLink []) pendingTwoChunks [0, 0]).n = 2 ∧
    (ReadFrom specExternals (steadyLink []) pendingTwoChunks [0, 0]).p = [1, 2] ∧
    (ReadFrom specExternals (steadyLink []) pendingTwoChunks [0, 0]).adaptor.readerBuffer
      = [[6, 7]] ∧
    (ReadFrom specExternals (steadyLink []) pendingTwoChunks [0, 0]).p.take 2
        ++ (ReadFrom specExternals (steadyLink []) pendingTwoChunks
              [0, 0]).adaptor.readerBuffer.bytes
      ≠ (available specExternals (steadyLink []) pendingTwoChunks).bytes ∧
    (ReadFrom specExternals (steadyLink [])
      (ReadFrom specExternals (steadyLink []) pendingTwoChunks [0, 0]).adaptor [0, 0]).p
      = [6, 7] ∧
    (ReadFrom specExternals (steadyLink []) pendingTwoChunks (List.replicate 7 0)).n = 5 ∧
    (ReadFrom specExternals (steadyLink []) pendingTwoChunks (List.replicate 7 0)).n
      ≠ min 7 (available specExternals (steadyLink []) pendingTwoChunks).bytes.length := by
  decide

/-! ### The codec as modelled -/

theorem getD_append_at (pre suf : List Byte) (i : Nat) :
    (pre ++ suf).getD (pre.length + i) 0 = suf.getD i 0 := by
  induction pre with
  | nil => simp
  | cons x xs ih =>
    simpa [Nat.add_right_comm xs.length 1 i] using ih

theorem decodePort_encodePort (pre data : List Byte) (port : Nat) (h : port < 65536) :
    decodePort (pre ++ (encodePort port ++ data)) pre.length = port := by
  unfold decodePort encodePort
  have h0 := getD_append_at pre ([port / 256 % 256, port % 256] ++ data) 0
  have h1 := getD_append_at pre ([port / 256 % 256, port % 256] ++ data) 1
  rw [Nat.add_zero] at h0
  rw [h0, h1]
  simp
  omega

theorem drop_frame (pre data : List Byte) (port : Nat) :
    (pre ++ (encodePort port ++ data)).drop (pre.length + 2) = data := by
  have hl : (encodePort port).length = 2 := rfl
  rw [← hl, ← List.length_append, ← List.append_assoc, List.drop_left]

theorem Extract_ipv6 (rest : List Byte) (h : 18 ≤ rest.length) :
    ExtractAddressFromPacket (2 :: rest)
      = (rest.drop 18,
          some { host := Address.ipv6Address (rest.take 16), port := decodePort rest 16 }) := by
  simp [ExtractAddressFromPacket, h]

theorem Extract_domain (len : Nat) (body : List Byte) (h : len + 2 ≤ body.length) :
    ExtractAddressFromPacket (3 :: len :: body)
      = (body.drop (len + 2),
          some { host := Address.domainAddress (String.mk ((body.take len).map Char.ofNat)),
                 port := decodePort body len }) := by
  simp [ExtractAddressFromPacket, h]

theorem Extract_Attach (data : List Byte) (a : Addr) (h : a.Valid) :
    ExtractAddressFromPacket (AttachAddressToPacket data a) = (data, some a) := by
  obtain ⟨host, port⟩ := a
  obtain ⟨hp, hh⟩ := h
  simp only at hp hh
  have hl : (encodePort port).length = 2 := rfl
  cases host with
  | ipv4Address b0 b1 b2 b3 =>
    simp [ExtractAddressFromPacket, AttachAddressToPacket, encodeAddress, encodePort, decodePort]
    omega
  | ipv6Address ip =>
    simp only at hh
    have hd := decodePort_encodePort ip data port hp
    have hdr := drop_frame ip data port
    have ht : (ip ++ (encodePort port ++ data)).take 16 = ip := by
      rw [← hh, List.take_left]
    rw [hh] at hd hdr
    have e : AttachAddressToPacket data { host := Address.ipv6Address ip, port := port }
        = 2 :: (ip ++ (encodePort port ++ data)) := by
      simp [AttachAddressToPacket, encodeAddress]
    rw [e, Extract_ipv6 _ (by simp [hh, hl]; omega), hd, hdr, ht]
  | domainAddress name =>
    simp only at hh
    have hb : (name.toList.map Char.toNat).length = name.length := by simp
    have hd := decodePort_encodePort (name.toList.map Char.toNat) data port hp
    have hdr := drop_frame (name.toList.map Char.toNat) data port
    have ht : ((name.toList.map Char.toNat) ++ (encodePort port ++ data)).take name.length
        = name.toList.map Char.toNat := by
      rw [← hb, List.take_left]
    rw [hb] at hd hdr
    have hmod : name.length % 256 = name.length := Nat.mod_eq_of_lt hh
    have e : AttachAddressToPacket data { host := Address.domainAddress name, port := port }
        = 3 :: name.length :: (name.toList.map Char.toNat ++ (encodePort port ++ data)) := by
      simp [AttachAddressToPacket, encodeAddress, hmod]
    rw [e, Extract_domain _ _ (by simp [hl]), hd, hdr, ht]
    have hs : String.mk ((name.toList.map Char.toNat).map Char.ofNat) = name := by
      rw [List.map_map]
      have : (Char.ofNat ∘ Char.toNat) = id := by
        funext c
        simp
      rw [this, List.map_id]
      rfl
    rw [hs]

/-! ### The end-to-end scenario -/

/-- C2: `WriteTo(payload, A)` followed by `ReadFrom` on the peer is claimed to give back
`n = len(payload)` and the address `A`. On the code the writer reports `len(payload)` sent,
the pipe carries one chunk of no bytes, and the peer's `ReadFrom` returns `n = 0`, a nil
error and whatever address its own array decodes to, for every payload and address; at
payload `1 2 3 4 5` and 10.0.0.1:9999, where the codec law holds, the peer gets `n = 0` and
no address. Had the framed packet reached the peer, `ReadFrom` would return `n = 12`, the
prefix included. -/
theorem writeThenRead_loses_datagram :
    (∀ (payload : List Byte) (a : Addr) (q : List Byte),
      (writeThenRead specExternals payload a q).1.n = payload.length ∧
      (writeThenRead specExternals payload a q).1.err = none ∧
      (writeThenRead specExternals payload a q).2.n = 0 ∧
      (writeThenRead specExternals payload a q).2.err = none ∧
      (writeThenRead specExternals payload a q).2.p = q ∧
      (writeThenRead specExternals payload a q).2.addr = (ExtractAddressFromPacket q).2) ∧
    specExternals.ExtractAddressFromPacket
        (specExternals.AttachAddressToPacket payload5 addr10) = (payload5, some addr10) ∧
    (writeThenRead specExternals payload5 addr10 zeroBuffer).2.n = 0 ∧
    (writeThenRead specExternals payload5 addr10 zeroBuffer).2.addr = none ∧
    (ReadFrom specExternals (steadyLink [AttachAddressToPacket payload5 addr10])
        (freshAdaptor ()) zeroBuffer).n = 12 := by
  refine ⟨fun payload a q => ?_, by decide, by decide, by decide, by decide⟩
  simp [writeThenRead, WriteTo, ReadFrom, pipe, specExternals, New, IsEmpty, SplitFirstBytes,
    SplitFirst]

/-! ### The address `ReadFrom` returns -/

/-- C10: the address returned by `ReadFrom` is claimed to depend on the bytes copied alone.
The code decodes the caller's whole array as `buf.SplitFirstBytes` left it, not its first `n`
bytes. A link delivers three bytes, `1 10 0`; into an array that held an older datagram the
call returns `n = 3` and 10.0.0.1:9999, into an array of zeros `n = 3` and 10.0.0.0:0, while
the three bytes copied decode to no address. With a reader that fails and delivers nothing,
`n = 0` and the address is that of the old datagram. -/
theorem ReadFrom_addr_reads_stale_bytes :
    (∀ (E : Externals) (L : Link Unit) (c : packetConnectionAdaptor Unit) (p : List Byte),
      (ReadFrom E L c p).addr
        = (E.ExtractAddressFromPacket (E.SplitFirstBytes (available E L c) p).2.1).2) ∧
    (ReadFrom specExternals runtLink (freshAdaptor ()) staleBuffer).n = 3 ∧
    (ReadFrom specExternals runtLink (freshAdaptor ()) zeroBuffer).n = 3 ∧
    (ReadFrom specExternals runtLink (freshAdaptor ()) staleBuffer).p
      = [1, 10, 0, 0, 1, 39, 15, 1, 2, 3, 4, 5] ∧
    (ReadFrom specExternals runtLink (freshAdaptor ()) staleBuffer).addr = some addr10 ∧
    (ReadFrom specExternals runtLink (freshAdaptor ()) zeroBuffer).addr
      = some { host := Address.ipv4Address 10 0 0 0, port := 0 } ∧
    (specExternals.ExtractAddressFromPacket
      ((ReadFrom specExternals runtLink (freshAdaptor ()) staleBuffer).p.take 3)).2 = none ∧
    (ReadFrom specExternals (failingLink [] errClosedPipe) (freshAdaptor ())
      (AttachAddressToPacket payload5 addr10)).n = 0 ∧
    (ReadFrom specExternals (failingLink [] errClosedPipe) (freshAdaptor ())
      (AttachAddressToPacket payload5 addr10)).addr = some addr10 := by
  refine ⟨fun E L c p => ?_, by decide, by decide, by decide, by decide, by decide, by decide,
    by decide, by decide⟩
  rw [ReadFrom_addr]
  have h := congrArg (fun x => x.2.1) (ReadFrom_split E L c p)
  simp only at h
  rw [h]

/-! ### After `Close` -/

/-- C4: after `Close`, every `ReadFrom` and `WriteTo` is claimed to fail. The adaptor keeps
no closed state; `Close` empties the pending-read buffer and hands the link to
`common.Interrupt`, and the link is left as that call returns it. On a link whose reader and
writer take no notice, `Close` returns nil and the next `ReadFrom` and `WriteTo` return a nil
error: the read delivers the link's three bytes and the write reports five bytes sent. The
same on the in-memory pipe, also after a further read, write and close. -/
theorem calls_after_Close_succeed :
    (Close specExternals (steadyLink [[7, 7, 7]]) (freshAdaptor ())).2 = none ∧
    (ReadFrom specExternals (steadyLink [[7, 7, 7]])
      (closed specExternals (steadyLink [[7, 7, 7]]) (freshAdaptor ())) zeroBuffer).err = none ∧
    (ReadFrom specExternals (steadyLink [[7, 7, 7]])
      (closed specExternals (steadyLink [[7, 7, 7]]) (freshAdaptor ())) zeroBuffer).n = 3 ∧
    (WriteTo specExternals (steadyLink [[7, 7, 7]])
      (closed specExternals (steadyLink [[7, 7, 7]]) (freshAdaptor ())) payload5 addr10).err
      = none ∧
    (WriteTo specExternals (steadyLink [[7, 7, 7]])
      (closed specExternals (steadyLink [[7, 7, 7]]) (freshAdaptor ())) payload5 addr10).n
      = 5 ∧
    (∀ (E : Externals) (L : Link PipeState) (c : packetConnectionAdaptor PipeState),
      (closed E L c).link = (L.Interrupt c.link).1) ∧
    (Close specExternals pipe adaptorOnPipe).2 = none ∧
    (closed specExternals pipe adaptorOnPipe).link = adaptorOnPipe.link ∧
    (ReadFrom specExternals pipe (closed specExternals pipe adaptorOnPipe) zeroBuffer).err
      = none ∧
    (ReadFrom specExternals pipe (closed specExternals pipe adaptorOnPipe) zeroBuffer).n
      = 3 ∧
    (WriteTo specExternals pipe (closed specExternals pipe adaptorOnPipe) payload5 addr10).err
      = none ∧
    (WriteTo specExternals pipe
      (runCalls specExternals pipe (closed specExternals pipe adaptorOnPipe) laterCalls)
      payload5 addr10).err = none := by
  refine ⟨by decide, by decide, by decide, by decide, by decide, fun E L c => rfl, by decide,
    by decide, by decide, by decide, by decide, by decide⟩

end packetaddr
